import Mathlib

/-
Verification of the time-lock gift contract
(src/contracts/time_lock/src/lib.rs, src/contracts/time_lock/src/errors.rs).

The contract is embedded shallowly:
- identities (soroban Address) are opaque comparable tokens, modelled as Nat;
- u64 ids and timestamps are Nat, i128 amounts are Int;
- the instance storage (the GIFTS map under its symbol key plus the NEXT_ID
  counter) is an explicit Store record threaded through every operation;
  a missing storage key is `none`, mirroring the Option returned by
  `env.storage().instance().get`;
- the soroban Map is an association list with soroban's keyed-overwrite `set`;
- the ledger timestamp is an explicit `now` parameter;
- the event published by unlock_gift is returned as a list of events
  (empty on every error path, a singleton on success);
- fallible operations return Except Error.
-/

namespace TimeLock

/-- Modelled from the spec: src/contracts/time_lock/src/types.rs is not in the
tree; spec section 3 gives the status as one of Created, Claimed, Unlocked. -/
inductive GiftStatus where
  | Created
  | Claimed
  | Unlocked
deriving DecidableEq, Repr

/-- Modelled from the spec: the Gift record of spec section 3 (types.rs absent):
sender, recipient (identities), amount (signed integer), unlock_timestamp
(seconds, u64), status. -/
structure Gift where
  sender : Nat
  recipient : Nat
  amount : Int
  unlock_timestamp : Nat
  status : GiftStatus
deriving DecidableEq, Repr

/-- The error enumeration of src/contracts/time_lock/src/errors.rs. -/
inductive Error where
  | NotUnlocked
  | AlreadyClaimed
  | InvalidAmount
  | Unauthorized
  | GiftNotFound
  | NotClaimed
  | AlreadyUnlocked
  | UnlockTimeNotReached
deriving DecidableEq, Repr

/-- Modelled from the spec: the GiftUnlockedEvent of types.rs (absent), carrying
the gift id, the scheduled unlock time and the actual unlock time, as
constructed in unlock_gift (lib.rs lines 119-124). -/
structure GiftUnlockedEvent where
  gift_id : Nat
  unlock_time : Nat
  unlocked_at : Nat
deriving DecidableEq, Repr

/-- Lookup in the soroban Map, modelled as an association list. -/
def mapGet (m : List (Nat × Gift)) (k : Nat) : Option Gift :=
  match m with
  | [] => none
  | (k', v) :: rest => if k' = k then some v else mapGet rest k

/-- Keyed overwrite in the soroban Map: replaces the binding for `k` if
present, otherwise appends it. -/
def mapSet (m : List (Nat × Gift)) (k : Nat) (v : Gift) : List (Nat × Gift) :=
  match m with
  | [] => [(k, v)]
  | (k', v') :: rest => if k' = k then (k, v) :: rest else (k', v') :: mapSet rest k v

/-- The contract's instance storage: the GIFTS map and the NEXT_ID counter.
Each is `none` when its key has never been written. -/
structure Store where
  gifts : Option (List (Nat × Gift))
  nextId : Option Nat
deriving DecidableEq, Repr

/-- A fresh storage, with neither key written. -/
def Store.empty : Store := ⟨none, none⟩

/-- create_gift (lib.rs lines 24-56). MIN and MAX are the bounds
MIN_GIFT_AMOUNT and MAX_GIFT_AMOUNT of constants.rs; modelled from the spec:
constants.rs is not in the tree and the spec gives only the interval
[MIN_GIFT_AMOUNT, MAX_GIFT_AMOUNT], so the two constants are parameters. -/
def create_gift (MIN MAX : Int) (s : Store) (sender recipient : Nat)
    (amount : Int) (unlock_timestamp : Nat) : Except Error Nat × Store :=
  if amount < MIN ∨ amount > MAX then
    (Except.error Error.InvalidAmount, s)
  else
    let gift_id := s.nextId.getD 0
    let next_gift_id := gift_id + 1
    let gift : Gift := ⟨sender, recipient, amount, unlock_timestamp, GiftStatus.Created⟩
    let gifts := s.gifts.getD []
    (Except.ok gift_id,
      { gifts := some (mapSet gifts gift_id gift), nextId := some next_gift_id })

/-- claim_gift (lib.rs lines 59-81). -/
def claim_gift (s : Store) (gift_id recipient : Nat) : Except Error Unit × Store :=
  match s.gifts with
  | none => (Except.error Error.GiftNotFound, s)
  | some gifts =>
    match mapGet gifts gift_id with
    | none => (Except.error Error.GiftNotFound, s)
    | some gift =>
      if gift.recipient ≠ recipient then
        (Except.error Error.Unauthorized, s)
      else if gift.status = GiftStatus.Claimed ∨ gift.status = GiftStatus.Unlocked then
        (Except.error Error.AlreadyClaimed, s)
      else
        let gift' := { gift with status := GiftStatus.Claimed }
        (Except.ok (), { s with gifts := some (mapSet gifts gift_id gift') })

/-- unlock_gift (lib.rs lines 84-129). `now` is the ledger timestamp; the
third component is the list of events published by the call. -/
def unlock_gift (s : Store) (now gift_id recipient : Nat) :
    Except Error Unit × Store × List GiftUnlockedEvent :=
  match s.gifts with
  | none => (Except.error Error.GiftNotFound, s, [])
  | some gifts =>
    match mapGet gifts gift_id with
    | none => (Except.error Error.GiftNotFound, s, [])
    | some gift =>
      if gift.recipient ≠ recipient then
        (Except.error Error.Unauthorized, s, [])
      else if gift.status ≠ GiftStatus.Claimed then
        (Except.error Error.NotClaimed, s, [])
      else if gift.status = GiftStatus.Unlocked then
        (Except.error Error.AlreadyUnlocked, s, [])
      else if now < gift.unlock_timestamp then
        (Except.error Error.UnlockTimeNotReached, s, [])
      else
        let unlock_time := gift.unlock_timestamp
        let gift' := { gift with status := GiftStatus.Unlocked }
        (Except.ok (), { s with gifts := some (mapSet gifts gift_id gift') },
          [⟨gift_id, unlock_time, now⟩])

/-- get_gift (lib.rs lines 132-137): pure read, returns no store. -/
def get_gift (s : Store) (gift_id : Nat) : Except Error Gift :=
  match s.gifts with
  | none => Except.error Error.GiftNotFound
  | some gifts =>
    match mapGet gifts gift_id with
    | none => Except.error Error.GiftNotFound
    | some gift => Except.ok gift

/-- get_time_remaining (lib.rs lines 140-154). -/
def get_time_remaining (s : Store) (now gift_id : Nat) : Except Error Nat :=
  match get_gift s gift_id with
  | Except.error e => Except.error e
  | Except.ok gift =>
    if gift.status = GiftStatus.Unlocked then
      Except.ok 0
    else if now ≥ gift.unlock_timestamp then
      Except.ok 0
    else
      Except.ok (gift.unlock_timestamp - now)

/-- can_unlock (lib.rs lines 157-166). -/
def can_unlock (s : Store) (now gift_id : Nat) : Except Error Bool :=
  match get_gift s gift_id with
  | Except.error e => Except.error e
  | Except.ok gift =>
    if gift.status ≠ GiftStatus.Claimed then
      Except.ok false
    else
      Except.ok (decide (now ≥ gift.unlock_timestamp))

/-- get_recipient_gifts (lib.rs lines 169-182): pure read over the map. -/
def get_recipient_gifts (s : Store) (recipient : Nat) : Except Error (List Nat) :=
  match s.gifts with
  | none => Except.error Error.GiftNotFound
  | some gifts =>
    Except.ok ((gifts.filter (fun p => p.2.recipient = recipient)).map (fun p => p.1))

/-- One public call of the contract, with all its inputs. The three mutators
carry their arguments; the four queries are read-only in the source (they
never call `set` on storage), so applying them leaves the store unchanged. -/
inductive Op where
  | create (MIN MAX : Int) (sender recipient : Nat) (amount : Int) (ts : Nat)
  | claim (gift_id recipient : Nat)
  | unlock (now gift_id recipient : Nat)
  | queryGift (gift_id : Nat)
  | queryTimeRemaining (now gift_id : Nat)
  | queryCanUnlock (now gift_id : Nat)
  | queryRecipientGifts (recipient : Nat)
deriving DecidableEq, Repr

/-- Store after one public call. -/
def applyOp (s : Store) : Op → Store
  | Op.create MIN MAX sender recipient amount ts =>
      (create_gift MIN MAX s sender recipient amount ts).2
  | Op.claim gift_id recipient => (claim_gift s gift_id recipient).2
  | Op.unlock now gift_id recipient => (unlock_gift s now gift_id recipient).2.1
  | Op.queryGift _ => s
  | Op.queryTimeRemaining _ _ => s
  | Op.queryCanUnlock _ _ => s
  | Op.queryRecipientGifts _ => s

/-- Position of a status along the lifecycle Created, Claimed, Unlocked. -/
def statusRank : GiftStatus → Nat
  | GiftStatus.Created => 0
  | GiftStatus.Claimed => 1
  | GiftStatus.Unlocked => 2

/-- A store reachable by some sequence of public calls from fresh storage. -/
def Reachable (s : Store) : Prop :=
  ∃ ops : List Op, s = List.foldl applyOp Store.empty ops

/-- Freshness invariant: every stored id is below the NEXT_ID counter. -/
def Fresh (s : Store) : Prop :=
  ∀ id g, get_gift s id = Except.ok g → id < s.nextId.getD 0

/-- Run a list of create_gift requests (sender, recipient, amount,
unlock_timestamp) in order, collecting every result. -/
def runCreates (MIN MAX : Int) (s : Store) :
    List (Nat × Nat × Int × Nat) → List (Except Error Nat) × Store
  | [] => ([], s)
  | (sender, recipient, amount, ts) :: rest =>
    let out := create_gift MIN MAX s sender recipient amount ts
    let outs := runCreates MIN MAX out.2 rest
    (out.1 :: outs.1, outs.2)

/-- A concrete batch of create_gift requests: two valid amounts around an
invalid one (0, below a minimum of 1). -/
def demoReqs : List (Nat × Nat × Int × Nat) :=
  [(1, 5, 100, 1000), (1, 6, 0, 500), (2, 7, 200, 2000)]

/-- A concrete gift used to instantiate theorems with hypotheses. -/
def demoGift : Gift :=
  { sender := 1, recipient := 5, amount := 100, unlock_timestamp := 1000,
    status := GiftStatus.Created }

/-- A store holding demoGift (still Created) at id 0. -/
def demoStore : Store := { gifts := some [(0, demoGift)], nextId := some 1 }

/-- demoGift after a successful claim. -/
def demoClaimed : Gift := { demoGift with status := GiftStatus.Claimed }

/-- A store holding the claimed demo gift at id 0. -/
def demoClaimedStore : Store :=
  { gifts := some [(0, demoClaimed)], nextId := some 1 }

section MapLemmas

theorem mapGet_mapSet_self (m : List (Nat × Gift)) (k : Nat) (v : Gift) :
    mapGet (mapSet m k v) k = some v := by
  induction m with
  | nil => simp [mapGet, mapSet]
  | cons p rest ih =>
    obtain ⟨k', v'⟩ := p
    by_cases h : k' = k
    · simp [mapGet, mapSet, h]
    · simp [mapGet, mapSet, h, ih]

theorem mapGet_mapSet_ne (m : List (Nat × Gift)) (k k' : Nat) (v : Gift)
    (h : k ≠ k') : mapGet (mapSet m k v) k' = mapGet m k' := by
  induction m with
  | nil => simp [mapGet, mapSet, h]
  | cons p rest ih =>
    obtain ⟨k₀, v₀⟩ := p
    by_cases h₀ : k₀ = k
    · subst h₀
      simp [mapGet, mapSet, h]
    · by_cases h₁ : k₀ = k'
      · simp [mapGet, mapSet, h₀, h₁, Ne.symm h]
      · simp [mapGet, mapSet, h₀, h₁, ih]

theorem mapGet_mapSet_cases (m : List (Nat × Gift)) (k k' : Nat) (v v' : Gift)
    (h : mapGet (mapSet m k v) k' = some v') :
    (k = k' ∧ v = v') ∨ (k ≠ k' ∧ mapGet m k' = some v') := by
  by_cases hk : k = k'
  · subst hk
    rw [mapGet_mapSet_self] at h
    exact Or.inl ⟨rfl, Option.some.inj h⟩
  · rw [mapGet_mapSet_ne m k k' v hk] at h
    exact Or.inr ⟨hk, h⟩

end MapLemmas

section OpLemmas

theorem get_gift_error_eq (s : Store) (id : Nat) (e : Error)
    (h : get_gift s id = Except.error e) : e = Error.GiftNotFound := by
  unfold get_gift at h
  obtain ⟨gs, nid⟩ := s
  cases gs with
  | none => simp_all
  | some m => cases hm : mapGet m id <;> simp_all

theorem claim_gift_eq (s : Store) (id r : Nat) :
    claim_gift s id r =
      match get_gift s id with
      | Except.error e => (Except.error e, s)
      | Except.ok g =>
        if g.recipient ≠ r then
          (Except.error Error.Unauthorized, s)
        else if g.status = GiftStatus.Claimed ∨ g.status = GiftStatus.Unlocked then
          (Except.error Error.AlreadyClaimed, s)
        else
          (Except.ok (),
            { s with gifts := some (mapSet (s.gifts.getD []) id { g with status := GiftStatus.Claimed }) }) := by
  cases hsg : s.gifts with
  | none => simp [claim_gift, get_gift, hsg]
  | some m =>
    cases hm : mapGet m id with
    | none => simp [claim_gift, get_gift, hsg, hm]
    | some g => simp [claim_gift, get_gift, hsg, hm]

theorem unlock_gift_eq (s : Store) (now id r : Nat) :
    unlock_gift s now id r =
      match get_gift s id with
      | Except.error e => (Except.error e, s, [])
      | Except.ok g =>
        if g.recipient ≠ r then
          (Except.error Error.Unauthorized, s, [])
        else if g.status ≠ GiftStatus.Claimed then
          (Except.error Error.NotClaimed, s, [])
        else if g.status = GiftStatus.Unlocked then
          (Except.error Error.AlreadyUnlocked, s, [])
        else if now < g.unlock_timestamp then
          (Except.error Error.UnlockTimeNotReached, s, [])
        else
          (Except.ok (),
            { s with gifts := some (mapSet (s.gifts.getD []) id { g with status := GiftStatus.Unlocked }) },
            [⟨id, g.unlock_timestamp, now⟩]) := by
  cases hsg : s.gifts with
  | none => simp [unlock_gift, get_gift, hsg]
  | some m =>
    cases hm : mapGet m id with
    | none => simp [unlock_gift, get_gift, hsg, hm]
    | some g => simp [unlock_gift, get_gift, hsg, hm]

theorem get_gift_gifts_getD (s : Store) (id : Nat) (g : Gift)
    (h : get_gift s id = Except.ok g) : mapGet (s.gifts.getD []) id = some g := by
  unfold get_gift at h
  obtain ⟨gs, nid⟩ := s
  cases gs with
  | none => simp_all
  | some m =>
    cases hm : mapGet m id <;> simp_all [Option.getD]

end OpLemmas

section InvariantLemmas

theorem get_gift_some_eq (m : List (Nat × Gift)) (nid : Option Nat) (id : Nat) :
    get_gift ⟨some m, nid⟩ id =
      match mapGet m id with
      | none => Except.error Error.GiftNotFound
      | some g => Except.ok g := rfl

theorem get_gift_of_getD (s : Store) (id : Nat) (g : Gift)
    (h : mapGet (s.gifts.getD []) id = some g) : get_gift s id = Except.ok g := by
  cases hsg : s.gifts with
  | none => rw [hsg] at h; simp [mapGet] at h
  | some m =>
    rw [hsg] at h
    simp only [Option.getD] at h
    simp [get_gift, hsg, h]

theorem create_gift_invalid (MIN MAX : Int) (s : Store) (sender r : Nat)
    (amount : Int) (ts : Nat) (hc : amount < MIN ∨ amount > MAX) :
    create_gift MIN MAX s sender r amount ts = (Except.error Error.InvalidAmount, s) := by
  unfold create_gift
  rw [if_pos hc]

theorem create_gift_valid (MIN MAX : Int) (s : Store) (sender r : Nat)
    (amount : Int) (ts : Nat) (hc : ¬(amount < MIN ∨ amount > MAX)) :
    create_gift MIN MAX s sender r amount ts =
      (Except.ok (s.nextId.getD 0),
        ⟨some (mapSet (s.gifts.getD []) (s.nextId.getD 0)
           ⟨sender, r, amount, ts, GiftStatus.Created⟩),
         some (s.nextId.getD 0 + 1)⟩) := by
  unfold create_gift
  rw [if_neg hc]

theorem fresh_set_existing (s : Store) (gid : Nat) (g0 v : Gift) (hf : Fresh s)
    (hq : get_gift s gid = Except.ok g0) :
    Fresh { s with gifts := some (mapSet (s.gifts.getD []) gid v) } := by
  intro id g hg
  rw [get_gift_some_eq] at hg
  cases hm : mapGet (mapSet (s.gifts.getD []) gid v) id with
  | none => rw [hm] at hg; cases hg
  | some g1 =>
    rcases mapGet_mapSet_cases _ _ _ _ _ hm with ⟨he, _⟩ | ⟨hne, hm2⟩
    · subst he
      exact hf gid g0 hq
    · exact hf id g1 (get_gift_of_getD s id g1 hm2)

theorem fresh_create (MIN MAX : Int) (s : Store) (sender r : Nat) (amount : Int)
    (ts : Nat) (hf : Fresh s) :
    Fresh (create_gift MIN MAX s sender r amount ts).2 := by
  by_cases hc : amount < MIN ∨ amount > MAX
  · rw [create_gift_invalid MIN MAX s sender r amount ts hc]
    exact hf
  · rw [create_gift_valid MIN MAX s sender r amount ts hc]
    intro id g hg
    rw [get_gift_some_eq] at hg
    cases hm : mapGet (mapSet (s.gifts.getD []) (s.nextId.getD 0)
        ⟨sender, r, amount, ts, GiftStatus.Created⟩) id with
    | none => rw [hm] at hg; cases hg
    | some g1 =>
      rcases mapGet_mapSet_cases _ _ _ _ _ hm with ⟨he, _⟩ | ⟨hne, hm2⟩
      · subst he
        exact Nat.lt_succ_self _
      · exact Nat.lt_succ_of_lt (hf id g1 (get_gift_of_getD s id g1 hm2))

theorem fresh_applyOp (s : Store) (op : Op) (hf : Fresh s) : Fresh (applyOp s op) := by
  cases op with
  | create MIN MAX sender r amount ts => exact fresh_create MIN MAX s sender r amount ts hf
  | claim gid r =>
    simp only [applyOp]
    rw [claim_gift_eq]
    cases hq : get_gift s gid with
    | error e => exact hf
    | ok g0 =>
      dsimp only
      by_cases hr : g0.recipient ≠ r
      · rw [if_pos hr]; exact hf
      · rw [if_neg hr]
        by_cases hs : g0.status = GiftStatus.Claimed ∨ g0.status = GiftStatus.Unlocked
        · rw [if_pos hs]; exact hf
        · rw [if_neg hs]
          exact fresh_set_existing s gid g0 _ hf hq
  | unlock now gid r =>
    simp only [applyOp]
    rw [unlock_gift_eq]
    cases hq : get_gift s gid with
    | error e => exact hf
    | ok g0 =>
      dsimp only
      by_cases hr : g0.recipient ≠ r
      · rw [if_pos hr]; exact hf
      · rw [if_neg hr]
        by_cases hs : g0.status ≠ GiftStatus.Claimed
        · rw [if_pos hs]; exact hf
        · rw [if_neg hs]
          have hnu : ¬ g0.status = GiftStatus.Unlocked := by
            rw [not_not.mp hs]; simp
          rw [if_neg hnu]
          by_cases ht : now < g0.unlock_timestamp
          · rw [if_pos ht]; exact hf
          · rw [if_neg ht]
            exact fresh_set_existing s gid g0 _ hf hq
  | queryGift gid => exact hf
  | queryTimeRemaining now gid => exact hf
  | queryCanUnlock now gid => exact hf
  | queryRecipientGifts r => exact hf

theorem fresh_empty : Fresh Store.empty := by
  intro id g h
  simp [get_gift, Store.empty] at h

theorem fresh_foldl (s : Store) (ops : List Op) (hf : Fresh s) :
    Fresh (List.foldl applyOp s ops) := by
  induction ops generalizing s with
  | nil => exact hf
  | cons op rest ih => exact ih (applyOp s op) (fresh_applyOp s op hf)

theorem reachable_fresh (s : Store) (h : Reachable s) : Fresh s := by
  obtain ⟨ops, rfl⟩ := h
  exact fresh_foldl Store.empty ops fresh_empty

theorem applyOp_evolve (s : Store) (op : Op) (id : Nat) (g : Gift)
    (hf : Fresh s) (hg : get_gift s id = Except.ok g) :
    ∃ g', get_gift (applyOp s op) id = Except.ok g' ∧
      g'.sender = g.sender ∧ g'.recipient = g.recipient ∧ g'.amount = g.amount ∧
      g'.unlock_timestamp = g.unlock_timestamp ∧
      (g'.status = g.status ∨
        (g.status = GiftStatus.Created ∧ g'.status = GiftStatus.Claimed) ∨
        (g.status = GiftStatus.Claimed ∧ g'.status = GiftStatus.Unlocked)) := by
  cases op with
  | create MIN MAX sender r amount ts =>
    simp only [applyOp]
    by_cases hc : amount < MIN ∨ amount > MAX
    · rw [create_gift_invalid MIN MAX s sender r amount ts hc]
      exact ⟨g, hg, rfl, rfl, rfl, rfl, Or.inl rfl⟩
    · rw [create_gift_valid MIN MAX s sender r amount ts hc]
      have hid : id < s.nextId.getD 0 := hf id g hg
      refine ⟨g, ?_, rfl, rfl, rfl, rfl, Or.inl rfl⟩
      have hstep : get_gift
          (⟨some (mapSet (s.gifts.getD []) (s.nextId.getD 0)
             ⟨sender, r, amount, ts, GiftStatus.Created⟩),
           some (s.nextId.getD 0 + 1)⟩ : Store) id = Except.ok g := by
        rw [get_gift_some_eq,
          mapGet_mapSet_ne _ _ _ _ (Ne.symm (Nat.ne_of_lt hid)),
          get_gift_gifts_getD s id g hg]
      exact hstep
  | claim gid r =>
    simp only [applyOp]
    rw [claim_gift_eq]
    cases hq : get_gift s gid with
    | error e => exact ⟨g, hg, rfl, rfl, rfl, rfl, Or.inl rfl⟩
    | ok g0 =>
      dsimp only
      by_cases hr : g0.recipient ≠ r
      · rw [if_pos hr]
        exact ⟨g, hg, rfl, rfl, rfl, rfl, Or.inl rfl⟩
      · rw [if_neg hr]
        by_cases hs : g0.status = GiftStatus.Claimed ∨ g0.status = GiftStatus.Unlocked
        · rw [if_pos hs]
          exact ⟨g, hg, rfl, rfl, rfl, rfl, Or.inl rfl⟩
        · rw [if_neg hs]
          have hc0 : g0.status = GiftStatus.Created := by
            cases h0 : g0.status
            · rfl
            · exact absurd (Or.inl h0) hs
            · exact absurd (Or.inr h0) hs
          by_cases hid : gid = id
          · subst hid
            rw [hq] at hg
            injection hg with hgg
            subst hgg
            refine ⟨{ g0 with status := GiftStatus.Claimed }, ?_, rfl, rfl, rfl, rfl,
              Or.inr (Or.inl ⟨hc0, rfl⟩)⟩
            show get_gift { s with gifts := some (mapSet (s.gifts.getD []) gid
              { g0 with status := GiftStatus.Claimed }) } gid = _
            rw [get_gift_some_eq, mapGet_mapSet_self]
          · refine ⟨g, ?_, rfl, rfl, rfl, rfl, Or.inl rfl⟩
            show get_gift { s with gifts := some (mapSet (s.gifts.getD []) gid
              { g0 with status := GiftStatus.Claimed }) } id = _
            rw [get_gift_some_eq, mapGet_mapSet_ne _ _ _ _ hid,
              get_gift_gifts_getD s id g hg]
  | unlock now gid r =>
    simp only [applyOp]
    rw [unlock_gift_eq]
    cases hq : get_gift s gid with
    | error e => exact ⟨g, hg, rfl, rfl, rfl, rfl, Or.inl rfl⟩
    | ok g0 =>
      dsimp only
      by_cases hr : g0.recipient ≠ r
      · rw [if_pos hr]
        exact ⟨g, hg, rfl, rfl, rfl, rfl, Or.inl rfl⟩
      · rw [if_neg hr]
        by_cases hs : g0.status ≠ GiftStatus.Claimed
        · rw [if_pos hs]
          exact ⟨g, hg, rfl, rfl, rfl, rfl, Or.inl rfl⟩
        · rw [if_neg hs]
          have hcl : g0.status = GiftStatus.Claimed := not_not.mp hs
          have hnu : ¬ g0.status = GiftStatus.Unlocked := by rw [hcl]; simp
          rw [if_neg hnu]
          by_cases ht : now < g0.unlock_timestamp
          · rw [if_pos ht]
            exact ⟨g, hg, rfl, rfl, rfl, rfl, Or.inl rfl⟩
          · rw [if_neg ht]
            by_cases hid : gid = id
            · subst hid
              rw [hq] at hg
              injection hg with hgg
              subst hgg
              refine ⟨{ g0 with status := GiftStatus.Unlocked }, ?_, rfl, rfl, rfl, rfl,
                Or.inr (Or.inr ⟨hcl, rfl⟩)⟩
              show get_gift { s with gifts := some (mapSet (s.gifts.getD []) gid
                { g0 with status := GiftStatus.Unlocked }) } gid = _
              rw [get_gift_some_eq, mapGet_mapSet_self]
            · refine ⟨g, ?_, rfl, rfl, rfl, rfl, Or.inl rfl⟩
              show get_gift { s with gifts := some (mapSet (s.gifts.getD []) gid
                { g0 with status := GiftStatus.Unlocked }) } id = _
              rw [get_gift_some_eq, mapGet_mapSet_ne _ _ _ _ hid,
                get_gift_gifts_getD s id g hg]
  | queryGift gid => exact ⟨g, hg, rfl, rfl, rfl, rfl, Or.inl rfl⟩
  | queryTimeRemaining now gid => exact ⟨g, hg, rfl, rfl, rfl, rfl, Or.inl rfl⟩
  | queryCanUnlock now gid => exact ⟨g, hg, rfl, rfl, rfl, rfl, Or.inl rfl⟩
  | queryRecipientGifts r => exact ⟨g, hg, rfl, rfl, rfl, rfl, Or.inl rfl⟩

theorem statusRank_le_of_trans (a b : GiftStatus)
    (h : b = a ∨ (a = GiftStatus.Created ∧ b = GiftStatus.Claimed) ∨
         (a = GiftStatus.Claimed ∧ b = GiftStatus.Unlocked)) :
    statusRank a ≤ statusRank b := by
  rcases h with h | ⟨h1, h2⟩ | ⟨h1, h2⟩ <;> subst_vars <;> simp [statusRank]

theorem foldl_status_mono (ops : List Op) :
    ∀ s, Fresh s → ∀ id g g', get_gift s id = Except.ok g →
      get_gift (List.foldl applyOp s ops) id = Except.ok g' →
      statusRank g.status ≤ statusRank g'.status := by
  induction ops with
  | nil =>
    intro s _ id g g' hg hg'
    simp only [List.foldl_nil] at hg'
    rw [hg] at hg'
    injection hg' with h
    rw [h]
  | cons op rest ih =>
    intro s hf id g g' hg hg'
    simp only [List.foldl_cons] at hg'
    obtain ⟨g1, hg1, _, _, _, _, htr⟩ := applyOp_evolve s op id g hf hg
    exact le_trans (statusRank_le_of_trans _ _ htr)
      (ih (applyOp s op) (fresh_applyOp s op hf) id g1 g' hg1 hg')

end InvariantLemmas

/-- C2: claim_gift returns GiftNotFound when no gift with the id is stored;
Unauthorized when the stored recipient differs from the supplied one;
AlreadyClaimed when the gift is already Claimed or Unlocked; and otherwise
(status Created, matching recipient) succeeds with the gift stored with
status Claimed. On every error the store is unchanged. -/
theorem claim_gift_spec (s : Store) (id r : Nat) :
    (get_gift s id = Except.error Error.GiftNotFound →
       claim_gift s id r = (Except.error Error.GiftNotFound, s)) ∧
    (∀ g, get_gift s id = Except.ok g → g.recipient ≠ r →
       claim_gift s id r = (Except.error Error.Unauthorized, s)) ∧
    (∀ g, get_gift s id = Except.ok g → g.recipient = r →
       g.status = GiftStatus.Claimed ∨ g.status = GiftStatus.Unlocked →
       claim_gift s id r = (Except.error Error.AlreadyClaimed, s)) ∧
    (∀ g, get_gift s id = Except.ok g → g.recipient = r →
       g.status = GiftStatus.Created →
       (claim_gift s id r).1 = Except.ok () ∧
       get_gift (claim_gift s id r).2 id =
         Except.ok { g with status := GiftStatus.Claimed }) := by
  refine ⟨?_, ?_, ?_, ?_⟩
  · intro h
    rw [claim_gift_eq, h]
  · intro g hg hr
    rw [claim_gift_eq, hg]
    simp [hr]
  · intro g hg hr hs
    rw [claim_gift_eq, hg]
    simp [hr, hs]
  · intro g hg hr hs
    have hns : ¬(g.status = GiftStatus.Claimed ∨ g.status = GiftStatus.Unlocked) := by
      rw [hs]; simp
    rw [claim_gift_eq, hg]
    simp only [hr, ne_eq, not_true_eq_false, if_false, hns, if_true]
    exact ⟨by simp, by simp [get_gift, mapGet_mapSet_self]⟩

/-- Witness for claim_gift_spec: claiming the demo gift (Created, recipient 5)
succeeds and stores it Claimed. -/
theorem claim_gift_spec_witness :
    (claim_gift demoStore 0 5).1 = Except.ok () ∧
    get_gift (claim_gift demoStore 0 5).2 0 =
      Except.ok { demoGift with status := GiftStatus.Claimed } :=
  (claim_gift_spec demoStore 0 5).2.2.2 demoGift (by rfl) (by decide) (by decide)

/-- C5: whenever create_gift, claim_gift or unlock_gift returns an error, the
whole store (gifts map and next-id counter) is exactly as before the call; in
particular create_gift returning InvalidAmount increments no counter and adds
no record. -/
theorem error_atomicity :
    (∀ MIN MAX : Int, ∀ s sender r, ∀ amount : Int, ∀ ts, ∀ e,
       (create_gift MIN MAX s sender r amount ts).1 = Except.error e →
       (create_gift MIN MAX s sender r amount ts).2 = s) ∧
    (∀ s id r e, (claim_gift s id r).1 = Except.error e →
       (claim_gift s id r).2 = s) ∧
    (∀ s now id r e, (unlock_gift s now id r).1 = Except.error e →
       (unlock_gift s now id r).2.1 = s) := by
  refine ⟨?_, ?_, ?_⟩
  · intro MIN MAX s sender r amount ts e h
    unfold create_gift at h ⊢
    by_cases hc : amount < MIN ∨ amount > MAX
    · simp [hc]
    · simp [hc] at h
  · intro s id r e h
    rw [claim_gift_eq] at h ⊢
    cases hg : get_gift s id with
    | error e' => rfl
    | ok g =>
      rw [hg] at h
      by_cases hr : g.recipient ≠ r
      · simp [hr]
      · by_cases hs : g.status = GiftStatus.Claimed ∨ g.status = GiftStatus.Unlocked
        · simp [hr, hs]
        · simp [hr, hs] at h
  · intro s now id r e h
    rw [unlock_gift_eq] at h ⊢
    cases hg : get_gift s id with
    | error e' => rfl
    | ok g =>
      rw [hg] at h
      by_cases hr : g.recipient ≠ r
      · simp [hr]
      · by_cases hs : g.status ≠ GiftStatus.Claimed
        · simp [hr, hs]
        · by_cases hu : g.status = GiftStatus.Unlocked
          · simp [hr, hs, hu]
          · by_cases ht : now < g.unlock_timestamp
            · simp [hr, hs, hu, ht]
            · simp [hr, hs, hu, ht] at h

/-- Witness for error_atomicity: a failed claim (absent id) and a failed
create (amount 0 below the minimum 1) leave the demo store untouched. -/
theorem error_atomicity_witness :
    (claim_gift demoStore 99 5).2 = demoStore ∧
    (create_gift 1 10000 demoStore 1 5 0 1000).2 = demoStore :=
  ⟨error_atomicity.2.1 demoStore 99 5 Error.GiftNotFound (by rfl),
   error_atomicity.1 1 10000 demoStore 1 5 0 1000 Error.InvalidAmount (by rfl)⟩

/-- C7: get_time_remaining fails GiftNotFound on an absent id; returns 0 when
the gift is Unlocked or the time has reached unlock_timestamp; otherwise
returns unlock_timestamp minus the current time, an exact (never negative)
difference. -/
theorem get_time_remaining_spec (s : Store) (now id : Nat) :
    (get_gift s id = Except.error Error.GiftNotFound →
       get_time_remaining s now id = Except.error Error.GiftNotFound) ∧
    (∀ g, get_gift s id = Except.ok g →
       (g.status = GiftStatus.Unlocked ∨ g.unlock_timestamp ≤ now →
          get_time_remaining s now id = Except.ok 0) ∧
       (g.status ≠ GiftStatus.Unlocked → now < g.unlock_timestamp →
          get_time_remaining s now id = Except.ok (g.unlock_timestamp - now) ∧
          g.unlock_timestamp - now + now = g.unlock_timestamp)) := by
  refine ⟨?_, ?_⟩
  · intro h
    unfold get_time_remaining
    rw [h]
  · intro g hg
    unfold get_time_remaining
    rw [hg]
    refine ⟨?_, ?_⟩
    · rintro (hs | ht)
      · simp [hs]
      · by_cases hs : g.status = GiftStatus.Unlocked
        · simp [hs]
        · simp [hs, ht, ge_iff_le]
    · intro hs ht
      have hnr : ¬ now ≥ g.unlock_timestamp := not_le.mpr ht
      simp only [hs, if_false, ge_iff_le, hnr, if_true]
      exact ⟨by simp, Nat.sub_add_cancel (Nat.le_of_lt ht)⟩

/-- Witness for get_time_remaining_spec: at time 500 the demo gift (unlocks
at 1000) has 500 seconds remaining, and 500 + 500 = 1000. -/
theorem get_time_remaining_spec_witness :
    get_time_remaining demoStore 500 0 = Except.ok (1000 - 500) ∧
    1000 - 500 + 500 = 1000 :=
  ((get_time_remaining_spec demoStore 500 0).2 demoGift (by rfl)).2
    (by decide) (by decide)

/-- C8: can_unlock fails GiftNotFound only on an absent id, and on a stored
gift returns the boolean "status is Claimed and the time has reached
unlock_timestamp" — false, not an error, for Created or Unlocked gifts. -/
theorem can_unlock_spec (s : Store) (now id : Nat) :
    (get_gift s id = Except.error Error.GiftNotFound →
       can_unlock s now id = Except.error Error.GiftNotFound) ∧
    (∀ g, get_gift s id = Except.ok g →
       can_unlock s now id =
         Except.ok (decide (g.status = GiftStatus.Claimed ∧ g.unlock_timestamp ≤ now))) := by
  refine ⟨?_, ?_⟩
  · intro h
    unfold can_unlock
    rw [h]
  · intro g hg
    unfold can_unlock
    rw [hg]
    by_cases hs : g.status = GiftStatus.Claimed
    · simp [hs, ge_iff_le]
    · simp [hs]

/-- Witness for can_unlock_spec: the claimed demo gift at time 1000 can be
unlocked. -/
theorem can_unlock_spec_witness :
    can_unlock demoClaimedStore 1000 0 = Except.ok true :=
  (can_unlock_spec demoClaimedStore 1000 0).2 demoClaimed (by rfl)

/-- C3: on a stored gift that is Claimed with matching recipient, unlock_gift
fails UnlockTimeNotReached with the store unchanged and no event when the
current time is below unlock_timestamp; once the time reaches
unlock_timestamp it succeeds, stores the gift Unlocked, and emits exactly one
event whose scheduled time is unlock_timestamp and whose actual time is the
current time. -/
theorem unlock_gift_claimed_spec (s : Store) (now id r : Nat) (g : Gift)
    (hg : get_gift s id = Except.ok g) (hr : g.recipient = r)
    (hst : g.status = GiftStatus.Claimed) :
    (now < g.unlock_timestamp →
       unlock_gift s now id r = (Except.error Error.UnlockTimeNotReached, s, [])) ∧
    (g.unlock_timestamp ≤ now →
       (unlock_gift s now id r).1 = Except.ok () ∧
       get_gift (unlock_gift s now id r).2.1 id =
         Except.ok { g with status := GiftStatus.Unlocked } ∧
       (unlock_gift s now id r).2.2 = [⟨id, g.unlock_timestamp, now⟩]) := by
  have hne : ¬ g.status ≠ GiftStatus.Claimed := by simp [hst]
  have hnu : ¬ g.status = GiftStatus.Unlocked := by simp [hst]
  refine ⟨?_, ?_⟩
  · intro ht
    rw [unlock_gift_eq, hg]
    simp [hr, hne, hnu, ht]
  · intro ht
    have hnt : ¬ now < g.unlock_timestamp := not_lt.mpr ht
    rw [unlock_gift_eq, hg]
    simp only [hr, ne_eq, not_true_eq_false, if_false, hne, hnu, hnt, if_true]
    exact ⟨by simp, by simp [get_gift, mapGet_mapSet_self], by simp⟩

/-- Witness for unlock_gift_claimed_spec: unlocking the claimed demo gift at
time 1000 (its unlock_timestamp) succeeds, stores it Unlocked and emits the
single event (0, 1000, 1000). -/
theorem unlock_gift_claimed_spec_witness :
    (unlock_gift demoClaimedStore 1000 0 5).1 = Except.ok () ∧
    get_gift (unlock_gift demoClaimedStore 1000 0 5).2.1 0 =
      Except.ok { demoClaimed with status := GiftStatus.Unlocked } ∧
    (unlock_gift demoClaimedStore 1000 0 5).2.2 = [⟨0, 1000, 1000⟩] :=
  (unlock_gift_claimed_spec demoClaimedStore 1000 0 5 demoClaimed
    (by rfl) (by decide) (by decide)).2 (by decide)

/-- C4: on a stored gift with matching recipient whose status is not Claimed
(in particular one already Unlocked), unlock_gift fails NotClaimed with the
store unchanged; and no input or store state ever makes unlock_gift return
AlreadyUnlocked — that branch is unreachable. -/
theorem unlock_gift_not_claimed_spec (s : Store) (now id r : Nat) :
    (∀ g, get_gift s id = Except.ok g → g.recipient = r →
       g.status ≠ GiftStatus.Claimed →
       unlock_gift s now id r = (Except.error Error.NotClaimed, s, [])) ∧
    (unlock_gift s now id r).1 ≠ Except.error Error.AlreadyUnlocked := by
  refine ⟨?_, ?_⟩
  · intro g hg hr hs
    rw [unlock_gift_eq, hg]
    simp [hr, hs]
  · rw [unlock_gift_eq]
    cases hg : get_gift s id with
    | error e' =>
      have := get_gift_error_eq s id e' hg
      subst this
      simp
    | ok g =>
      by_cases hr : g.recipient ≠ r
      · simp [hr]
      · by_cases hs : g.status ≠ GiftStatus.Claimed
        · simp [hr, hs]
        · have hnu : ¬ g.status = GiftStatus.Unlocked := by
            rw [not_not.mp hs]; simp
          by_cases ht : now < g.unlock_timestamp
          · simp [hr, hs, hnu, ht]
          · simp [hr, hs, hnu, ht]

/-- Witness for unlock_gift_not_claimed_spec: unlocking the demo gift while it
is still Created fails NotClaimed (and is not AlreadyUnlocked) even past the
unlock time. -/
theorem unlock_gift_not_claimed_spec_witness :
    unlock_gift demoStore 2000 0 5 = (Except.error Error.NotClaimed, demoStore, []) ∧
    (unlock_gift demoStore 2000 0 5).1 ≠ Except.error Error.AlreadyUnlocked :=
  ⟨(unlock_gift_not_claimed_spec demoStore 2000 0 5).1 demoGift
     (by rfl) (by decide) (by decide),
   (unlock_gift_not_claimed_spec demoStore 2000 0 5).2⟩

/-- C10: with a stored gift whose recipient differs from the supplied one,
claim_gift and unlock_gift both fail Unauthorized, whatever the gift's status
and whatever the current time. -/
theorem unauthorized_spec (s : Store) (id r : Nat) (g : Gift)
    (hg : get_gift s id = Except.ok g) (hr : g.recipient ≠ r) :
    claim_gift s id r = (Except.error Error.Unauthorized, s) ∧
    ∀ now, unlock_gift s now id r = (Except.error Error.Unauthorized, s, []) := by
  refine ⟨?_, ?_⟩
  · rw [claim_gift_eq, hg]
    simp [hr]
  · intro now
    rw [unlock_gift_eq, hg]
    simp [hr]

/-- Witness for unauthorized_spec: recipient 7 is rejected on the demo gift
(stored recipient 5) by both claim and unlock. -/
theorem unauthorized_spec_witness :
    claim_gift demoStore 0 7 = (Except.error Error.Unauthorized, demoStore) ∧
    unlock_gift demoStore 123 0 7 = (Except.error Error.Unauthorized, demoStore, []) :=
  ⟨(unauthorized_spec demoStore 0 7 demoGift (by rfl) (by decide)).1,
   (unauthorized_spec demoStore 0 7 demoGift (by rfl) (by decide)).2 123⟩

theorem create_persist (MIN MAX : Int) (s : Store) (sender r : Nat) (amount : Int)
    (ts id : Nat) (g : Gift) (hf : Fresh s) (hg : get_gift s id = Except.ok g) :
    get_gift (create_gift MIN MAX s sender r amount ts).2 id = Except.ok g := by
  by_cases hc : amount < MIN ∨ amount > MAX
  · rw [create_gift_invalid MIN MAX s sender r amount ts hc]
    exact hg
  · rw [create_gift_valid MIN MAX s sender r amount ts hc]
    have hid := hf id g hg
    rw [get_gift_some_eq, mapGet_mapSet_ne _ _ _ _ (Ne.symm (Nat.ne_of_lt hid)),
      get_gift_gifts_getD s id g hg]

theorem runCreates_spec (MIN MAX : Int) (reqs : List (Nat × Nat × Int × Nat)) :
    ∀ s, Fresh s →
      (runCreates MIN MAX s reqs).1.filterMap Except.toOption =
        List.range' (s.nextId.getD 0)
          ((runCreates MIN MAX s reqs).1.filterMap Except.toOption).length ∧
      Fresh (runCreates MIN MAX s reqs).2 ∧
      (∀ i gi, get_gift s i = Except.ok gi →
         get_gift (runCreates MIN MAX s reqs).2 i = Except.ok gi) ∧
      (∀ i, i ∈ (runCreates MIN MAX s reqs).1.filterMap Except.toOption →
         ∃ gi, get_gift (runCreates MIN MAX s reqs).2 i = Except.ok gi) := by
  induction reqs with
  | nil =>
    intro s hf
    refine ⟨by simp [runCreates], hf, ?_, ?_⟩
    · intro i gi hgi
      simpa [runCreates] using hgi
    · intro i hi
      simp [runCreates] at hi
  | cons req rest ih =>
    obtain ⟨sender, r, amt, ts⟩ := req
    intro s hf
    by_cases hc : amt < MIN ∨ amt > MAX
    · obtain ⟨ha, hb, hcp, hd⟩ := ih s hf
      have h1 := create_gift_invalid MIN MAX s sender r amt ts hc
      simp only [runCreates, h1, List.filterMap_cons, Except.toOption]
      exact ⟨ha, hb, hcp, hd⟩
    · have h1 := create_gift_valid MIN MAX s sender r amt ts hc
      have hf1 : Fresh (create_gift MIN MAX s sender r amt ts).2 :=
        fresh_create MIN MAX s sender r amt ts hf
      obtain ⟨ha, hb, hcp, hd⟩ := ih (create_gift MIN MAX s sender r amt ts).2 hf1
      have hcount : ((create_gift MIN MAX s sender r amt ts).2).nextId.getD 0 =
          s.nextId.getD 0 + 1 := by rw [h1]; rfl

      have hnew : get_gift (create_gift MIN MAX s sender r amt ts).2 (s.nextId.getD 0) =
          Except.ok ⟨sender, r, amt, ts, GiftStatus.Created⟩ := by
        rw [h1]
        dsimp only
        rw [get_gift_some_eq, mapGet_mapSet_self]
      have hfst : (create_gift MIN MAX s sender r amt ts).1 =
          Except.ok (s.nextId.getD 0) := by rw [h1]
      rw [hcount] at ha
      simp only [runCreates, List.filterMap_cons, hfst, Except.toOption]
      refine ⟨?_, hb, ?_, ?_⟩
      · rw [List.length_cons]
        have hr' : List.range' (s.nextId.getD 0)
            (((runCreates MIN MAX (create_gift MIN MAX s sender r amt ts).2 rest).1.filterMap
              Except.toOption).length + 1) =
            s.nextId.getD 0 :: List.range' (s.nextId.getD 0 + 1)
              ((runCreates MIN MAX (create_gift MIN MAX s sender r amt ts).2 rest).1.filterMap
                Except.toOption).length := rfl
        rw [hr', ← ha]
      · intro i gi hgi
        exact hcp i gi (create_persist MIN MAX s sender r amt ts i gi hf hgi)
      · intro i hi
        rcases List.mem_cons.mp hi with he | hm
        · subst he
          exact ⟨_, hcp _ _ hnew⟩
        · exact hd i hm

/-- C6: starting from fresh storage, any sequence of create_gift calls hands
out the ids 0, 1, 2, ... in order over its successful calls — the successes
return exactly List.range of their count, so the first success returns 0,
each later one a strictly larger id, none reused — and every returned id is
stored in the final store. -/
theorem create_ids_sequential (MIN MAX : Int) (reqs : List (Nat × Nat × Int × Nat)) :
    (runCreates MIN MAX Store.empty reqs).1.filterMap Except.toOption =
      List.range
        ((runCreates MIN MAX Store.empty reqs).1.filterMap Except.toOption).length ∧
    (∀ i, i ∈ (runCreates MIN MAX Store.empty reqs).1.filterMap Except.toOption →
       ∃ g, get_gift (runCreates MIN MAX Store.empty reqs).2 i = Except.ok g) := by
  obtain ⟨ha, _, _, hd⟩ := runCreates_spec MIN MAX reqs Store.empty fresh_empty
  refine ⟨?_, hd⟩
  rw [List.range_eq_range'
    ((runCreates MIN MAX Store.empty reqs).1.filterMap Except.toOption).length]
  exact ha

/-- Witness for create_ids_sequential: running the demo batch (valid, invalid,
valid) yields successful ids [0, 1], and id 0 is stored at the end. -/
theorem create_ids_sequential_witness :
    (0 : Nat) ∈ (runCreates 1 10000 Store.empty demoReqs).1.filterMap Except.toOption ∧
    ∃ g, get_gift (runCreates 1 10000 Store.empty demoReqs).2 0 = Except.ok g :=
  ⟨by decide, (create_ids_sequential 1 10000 demoReqs).2 0 (by decide)⟩

/-- C1: from any reachable store, a stored gift's status only ever advances
along Created to Claimed to Unlocked: a single operation either leaves the
status unchanged or makes one forward step (never Created directly to
Unlocked), and along any sequence of operations the status rank never
decreases. -/
theorem status_never_regresses (s : Store) (hs : Reachable s) :
    (∀ op id g g', get_gift s id = Except.ok g →
       get_gift (applyOp s op) id = Except.ok g' →
       g'.status = g.status ∨
         (g.status = GiftStatus.Created ∧ g'.status = GiftStatus.Claimed) ∨
         (g.status = GiftStatus.Claimed ∧ g'.status = GiftStatus.Unlocked)) ∧
    (∀ ops id g g', get_gift s id = Except.ok g →
       get_gift (List.foldl applyOp s ops) id = Except.ok g' →
       statusRank g.status ≤ statusRank g'.status) := by
  have hf := reachable_fresh s hs
  refine ⟨?_, ?_⟩
  · intro op id g g' hg hg'
    obtain ⟨g1, hg1, _, _, _, _, htr⟩ := applyOp_evolve s op id g hf hg
    rw [hg1] at hg'
    injection hg' with h
    rw [h] at htr
    exact htr
  · intro ops id g g' hg hg'
    exact foldl_status_mono ops s hf id g g' hg hg'

/-- Witness for status_never_regresses: claiming the (reachable) demo store's
gift 0 moves its status Created to Claimed, a legal forward step. -/
theorem status_never_regresses_witness :
    demoClaimed.status = demoGift.status ∨
      (demoGift.status = GiftStatus.Created ∧ demoClaimed.status = GiftStatus.Claimed) ∨
      (demoGift.status = GiftStatus.Claimed ∧ demoClaimed.status = GiftStatus.Unlocked) :=
  (status_never_regresses demoStore
      ⟨[Op.create 1 10000 1 5 100 1000], by rfl⟩).1
    (Op.claim 0 5) 0 demoGift demoClaimed (by rfl) (by rfl)

/-- C9: from any reachable store, no operation ever changes a stored gift's
sender, recipient, amount or unlock_timestamp: any gift found under the same
id after the operation agrees with the one before on all four fields. -/
theorem fields_immutable (s : Store) (hs : Reachable s) (op : Op) (id : Nat)
    (g g' : Gift) (hg : get_gift s id = Except.ok g)
    (hg' : get_gift (applyOp s op) id = Except.ok g') :
    g'.sender = g.sender ∧ g'.recipient = g.recipient ∧ g'.amount = g.amount ∧
    g'.unlock_timestamp = g.unlock_timestamp := by
  have hf := reachable_fresh s hs
  obtain ⟨g1, hg1, h1, h2, h3, h4, _⟩ := applyOp_evolve s op id g hf hg
  rw [hg1] at hg'
  injection hg' with h
  rw [h] at h1 h2 h3 h4
  exact ⟨h1, h2, h3, h4⟩

/-- Witness for fields_immutable: unlocking the claimed demo gift keeps its
sender, recipient, amount and unlock_timestamp. -/
theorem fields_immutable_witness :
    ({ demoClaimed with status := GiftStatus.Unlocked } : Gift).sender = demoClaimed.sender ∧
    ({ demoClaimed with status := GiftStatus.Unlocked } : Gift).recipient = demoClaimed.recipient ∧
    ({ demoClaimed with status := GiftStatus.Unlocked } : Gift).amount = demoClaimed.amount ∧
    ({ demoClaimed with status := GiftStatus.Unlocked } : Gift).unlock_timestamp = demoClaimed.unlock_timestamp :=
  fields_immutable demoClaimedStore
    ⟨[Op.create 1 10000 1 5 100 1000, Op.claim 0 5], by rfl⟩
    (Op.unlock 1000 0 5) 0 demoClaimed { demoClaimed with status := GiftStatus.Unlocked }
    (by rfl) (by rfl)

end TimeLock
